import Mathlib

/-!
Shallow embedding of the retrieval-augmented answering pipeline of the
slack-docs-bot repository, together with theorems settling the frozen
claims about it.

The embedding follows the Python sources file by file:
* `src/ingestion/github_loader.py` — inclusion predicate and metadata tagging,
* `src/ingestion/docs_loader.py` — metadata tagging of docs pages,
* `src/retrieval/query_engine.py` — `Source`/`QueryResult`, snippet
  truncation, chunk-to-source mapping, and the retry wrapper,
* `src/bot/responses.py` — `format_response`,
* `src/retrieval/llm_provider.py` — `get_llm` with its cache and the
  Ollama health probe.

Python strings are modelled as Lean `String` (sequences of unicode code
points, `String.data`); Python dicts of strings as association lists with
first-match lookup; filesystem and network effects as explicit parameters
(a `String → FileInfo` map for the filesystem, an `OllamaProbe` value for
the health-probe outcome); the process-wide LLM cache as explicit state
threaded through `get_llm`.
-/

namespace DocsBot

/-! ### Python string primitives -/

/-- Rendering of an `Optional[str]` by a Python f-string: `None` renders as
the four-character string `"None"`, a string renders as itself. -/
def pyStrOpt : Option String → String
  | none => "None"
  | some s => s

/-- Index of the last occurrence of `c` in `cs`, or `-1` when absent
(Python `str.rfind`). -/
def lastIndexOf (cs : List Char) (c : Char) : Int :=
  cs.enum.foldl (fun acc p => if p.2 = c then (p.1 : Int) else acc) (-1)

/-- Python `os.path.splitext` for POSIX paths (separator `/`, extension
separator `.`): the extension starts at the last dot that comes after the
last path separator, provided at least one non-dot character stands between
them (so leading dots of the basename never begin an extension). -/
def splitext (p : String) : String × String :=
  let cs := p.data
  let sepIndex := lastIndexOf cs '/'
  let dotIndex := lastIndexOf cs '.'
  if sepIndex < dotIndex then
    let between := (cs.drop (sepIndex + 1).toNat).take (dotIndex - sepIndex - 1).toNat
    if between.any (fun c => c ≠ '.') then
      (⟨cs.take dotIndex.toNat⟩, ⟨cs.drop dotIndex.toNat⟩)
    else
      (p, "")
  else
    (p, "")

/-- Python `str.rstrip('/')`: drop trailing `/` characters. -/
def pyRstripSlash (s : String) : String :=
  ⟨(s.data.reverse.dropWhile (fun c => c = '/')).reverse⟩

/-- Python `str.lower`, character-wise (`Char.toLower` agrees with Python
on the ASCII extensions this code compares). -/
def pyLower (s : String) : String :=
  ⟨s.data.map Char.toLower⟩

/-- Splitting a character list at every occurrence of `sep`, keeping empty
segments, as Python `str.split(sep)` does for a one-character separator. -/
def splitChar (sep : Char) : List Char → List (List Char)
  | [] => [[]]
  | c :: cs =>
    let r := splitChar sep cs
    if c = sep then
      [] :: r
    else
      match r with
      | [] => [[c]]
      | hd :: tl => (c :: hd) :: tl

/-- Python `file_path.split(os.sep)` with the POSIX separator `/`. -/
def pySplitSlash (s : String) : List String :=
  (splitChar '/' s.data).map (fun l => ⟨l⟩)

/-- Python `str.startswith`: prefix test on the code-point sequence. -/
def pyStartsWith (s pre : String) : Bool :=
  pre.data.isPrefixOf s.data

/-! ### Metadata dictionaries

LlamaIndex node metadata is a Python dict with string keys and string
values (for every key this code reads).  `pyDictGet m k d` is Python
`m.get(k, d)`. -/

/-- A Python string-to-string dict, as an association list; assignment
prepends, lookup takes the first match. -/
def Metadata : Type := List (String × String)

/-- Python `dict.get(key)` returning `None` when absent. -/
def pyDictGet? (m : Metadata) (key : String) : Option String :=
  ((List.find? (fun p => p.1 == key) m)).map (fun p => p.2)

/-- Python `dict.get(key, default)`. -/
def pyDictGet (m : Metadata) (key : String) (dflt : String) : String :=
  (pyDictGet? m key).getD dflt

/-! ### `src/ingestion/github_loader.py` -/

/-- `INCLUDE_EXTENSIONS` from `github_loader.py` (a Python set of strings;
membership is the only operation used, so a list is a faithful model). -/
def INCLUDE_EXTENSIONS : List String :=
  [".py", ".ts", ".tsx", ".js", ".jsx",
   ".md", ".rst", ".txt",
   ".json", ".yaml", ".yml", ".toml",
   ".html", ".css", ".scss",
   ".sql", ".sh", ".bash",
   ".go", ".rs", ".java", ".kt"]

/-- `EXCLUDE_DIRS` from `github_loader.py`. -/
def EXCLUDE_DIRS : List String :=
  ["node_modules", "vendor", "dist", "build",
   ".git", ".github", "__pycache__", ".pytest_cache",
   "venv", ".venv", "env", ".env",
   "coverage", ".coverage", "htmlcov"]

/-- `MAX_FILE_SIZE = 100 * 1024` from `github_loader.py`. -/
def MAX_FILE_SIZE : Nat := 100 * 1024

/-- What the filesystem reports about a path: the file may be absent
(`os.path.exists` false), present with a size, or present but erroring on
`os.path.getsize` (`OSError`), modelled by `present none`. -/
inductive FileInfo where
  | absent
  | present (size : Option Nat)
deriving DecidableEq, Repr

/-- The first gate of `should_include_file`: the lower-cased extension must
be in the allow-list (`ext.lower() not in INCLUDE_EXTENSIONS → False`). -/
def extension_allowed (file_path : String) : Bool :=
  INCLUDE_EXTENSIONS.contains (pyLower (splitext file_path).2)

/-- `should_include_file` from `github_loader.py`, with the filesystem
passed explicitly: extension gate, then the size check (run only when the
file exists, rejecting on `OSError` or size above `MAX_FILE_SIZE`), then
the excluded-directory check on the `/`-separated path parts. -/
def should_include_file (fs : String → FileInfo) (file_path : String) : Bool :=
  if !(extension_allowed file_path) then
    false
  else
    let sizeOk : Bool :=
      match fs file_path with
      | .absent => true
      | .present none => false
      | .present (some sz) => !(decide (sz > MAX_FILE_SIZE))
    if !sizeOk then
      false
    else if (pySplitSlash file_path).any (fun part => EXCLUDE_DIRS.contains part) then
      false
    else
      true

/-- `repo_url.rstrip('/').split('/')[-1]` from `load_github_repo`. -/
def repo_name_of (repo_url : String) : String :=
  ((pySplitSlash (pyRstripSlash repo_url)).getLast?).getD ""

/-- The metadata dict of a repository Document after `load_github_repo`
tags it: `SimpleDirectoryReader` supplies `file_path` (the absolute path in
the local clone) and the loader then assigns `source`, `source_type` and
`repo_url`.  Note the loader writes the key `source`, not `source_path`. -/
def github_code_metadata (repo_name rel_path repo_url file_path : String) : Metadata :=
  [("repo_url", repo_url),
   ("source_type", "code"),
   ("source", repo_name ++ "/" ++ rel_path),
   ("file_path", file_path)]

/-! ### `src/ingestion/docs_loader.py` -/

/-- The metadata dict of a docs-page Document after `load_docs_from_sitemap`
tags it: `SimpleWebPageReader` supplies no path metadata, and the loader
assigns `source` (the page URL) and `source_type`. -/
def docs_page_metadata (url : String) : Metadata :=
  [("source_type", "docs"), ("source", url)]

/-! ### `src/retrieval/query_engine.py` — data model and source mapping -/

/-- The `Source` dataclass. -/
structure Source where
  text_snippet : String
  source_path : String
  source_type : String
  score : ℚ
deriving DecidableEq, Repr

/-- The `QueryResult` dataclass. -/
structure QueryResult where
  answer : String
  sources : List Source
deriving DecidableEq, Repr

/-- The snippet truncation in `query`:
`node.node.text[:200] + "..." if len(node.node.text) > 200 else node.node.text`.
Python slices by code points, so `text[:200]` is `text.data.take 200`. -/
def truncate_snippet (text : String) : String :=
  if text.length > 200 then (⟨text.data.take 200⟩ : String) ++ "..." else text

/-- The body of the source-extraction loop in `query`: build a `Source`
from a retrieved node's text, metadata and (optional) similarity score. -/
def source_from_node (text : String) (meta : Metadata) (score : Option ℚ) : Source :=
  { text_snippet := truncate_snippet text
    source_path := pyDictGet meta "source_path" (pyDictGet meta "file_path" "Unknown")
    source_type := pyDictGet meta "source_type" "docs"
    score := score.getD 0 }

/-! ### `src/bot/responses.py` -/

/-- The loop body of `format_response`: one rendered source line,
1-indexed.  A source renders as a Slack link only when its `source_type`
is `docs` and its path starts with `http`; otherwise code-styled. -/
def render_source_line (i : Nat) (source : Source) : String :=
  let source_link := source.source_path
  if source.source_type == "docs" && pyStartsWith source_link "http" then
    toString i ++ ". <" ++ source_link ++ "|" ++ source_link ++ ">"
  else
    toString i ++ ". `" ++ source_link ++ "`"

/-- `format_response` from `responses.py`: the answer, a blank line, a
`---` rule and a `*Sources:*` heading, then one line per source for the
first three sources, all joined with newlines. -/
def format_response (result : QueryResult) : String :=
  let lines : List String := [result.answer, "", "---", "*Sources:*"]
  let sourceLines : List String :=
    (result.sources.take 3).enum.map (fun p => render_source_line (p.1 + 1) p.2)
  String.intercalate "\n" (lines ++ sourceLines)

/-! ### `src/retrieval/llm_provider.py` -/

/-- The settings attributes `get_llm` reads off the configuration object
(`settings.LLM_PROVIDER`, the OpenAI credentials, and the Ollama
model/base-URL/timeout/context-window). -/
structure ProviderSettings where
  LLM_PROVIDER : String
  OPENAI_API_KEY : String
  OPENAI_API_BASE : String
  LLM_MODEL : String
  OLLAMA_BASE_URL : String
  OLLAMA_MODEL : String
  OLLAMA_TIMEOUT : ℚ
  OLLAMA_CONTEXT_WINDOW : Nat
deriving DecidableEq, Repr

/-- A constructed LLM handle: an `OpenAI(...)` or `Ollama(...)` instance,
identified by the constructor arguments `get_llm` passes. -/
inductive LLMHandle where
  | openai (api_key api_base model : String) (temperature : ℚ) (max_tokens : Nat)
      (system_prompt : Option String)
  | ollama (model base_url : String) (request_timeout : ℚ) (context_window : Nat)
      (system_prompt : Option String)
deriving DecidableEq, Repr

/-- The `system_prompt` constructor argument recorded in a handle. -/
def LLMHandle.system_prompt : LLMHandle → Option String
  | .openai _ _ _ _ _ sp => sp
  | .ollama _ _ _ _ sp => sp

/-- One entry of the parsed `/api/tags` payload: a dict from which only
`m.get("name", "")` is read, so only the optional `name` field is kept. -/
structure TagEntry where
  name : Option String
deriving DecidableEq, Repr

/-- Outcome of the Ollama health probe `requests.get(f"{base_url}/api/tags")`:
the request raises (or the response status is an error), the body is not
JSON (`response.json()` raises `ValueError msg`), or the body parses and
optionally carries a `models` list. -/
inductive OllamaProbe where
  | unreachable
  | invalidJson (msg : String)
  | tags (models : Option (List TagEntry))
deriving DecidableEq, Repr

/-- The process-wide state `get_llm` touches: the `_llm_cache` dict plus
instrumentation counting backend-handle constructions and health probes
(network calls). -/
structure LLMCacheState where
  cache : List (String × LLMHandle)
  constructions : Nat
  probes : Nat
deriving DecidableEq, Repr

/-- The cache key `f"{provider}:{system_prompt}"` computed in `get_llm`. -/
def cacheKey (provider : String) (system_prompt : Option String) : String :=
  provider ++ ":" ++ pyStrOpt system_prompt

/-- Dict lookup in `_llm_cache`. -/
def cacheLookup (cache : List (String × LLMHandle)) (key : String) : Option LLMHandle :=
  ((List.find? (fun p => p.1 == key) cache)).map (fun p => p.2)

/-- Dict assignment `_llm_cache[key] = llm` (later assignments shadow). -/
def cacheInsert (cache : List (String × LLMHandle)) (key : String) (llm : LLMHandle) :
    List (String × LLMHandle) :=
  (key, llm) :: cache

/-- Error message for an unreachable Ollama backend. -/
def ollama_connect_error (base_url : String) : String :=
  "Cannot connect to Ollama at " ++ base_url ++ ". Is Ollama running?"

/-- Error message for a malformed (non-JSON) health-probe response;
`msg` is the text of the `ValueError` raised by `response.json()`. -/
def ollama_invalid_response_error (base_url msg : String) : String :=
  "Invalid response from Ollama at " ++ base_url ++ ": " ++ msg

/-- Error message for a configured model missing from the reported list. -/
def ollama_model_not_found_error (model : String) (model_names : List String) : String :=
  "Model \x27" ++ model ++ "\x27 not found in Ollama. Available models: " ++
    (if model_names.isEmpty then "none" else String.intercalate ", " model_names) ++
    ". Run: ollama pull " ++ model

/-- Error message for an unrecognized `LLM_PROVIDER`. -/
def invalid_provider_error (provider : String) : String :=
  "Invalid LLM_PROVIDER: " ++ provider ++ ". Must be \x27openai\x27 or \x27ollama\x27."

/-- `get_llm` from `llm_provider.py`: cache lookup on
`f"{provider}:{system_prompt}"` first; on a miss, the `openai` branch
constructs an `OpenAI` handle (temperature `0.1`, `max_tokens` 1024) with
no network call, the `ollama` branch performs the health probe (counted in
`probes`) and either fails with one of the taxonomy errors or constructs
the `Ollama` handle; an unrecognized provider is a `ValueError`.  Raised
exceptions are `Except.error` carrying the message. -/
def get_llm (settings : ProviderSettings) (system_prompt : Option String)
    (probe : OllamaProbe) (st : LLMCacheState) :
    Except String (LLMHandle × LLMCacheState) :=
  let provider := settings.LLM_PROVIDER
  let key := cacheKey provider system_prompt
  match cacheLookup st.cache key with
  | some llm => .ok (llm, st)
  | none =>
    if provider = "openai" then
      let llm := LLMHandle.openai settings.OPENAI_API_KEY settings.OPENAI_API_BASE
        settings.LLM_MODEL (1/10) 1024 system_prompt
      .ok (llm, { st with cache := cacheInsert st.cache key llm,
                          constructions := st.constructions + 1 })
    else if provider = "ollama" then
      let base_url := settings.OLLAMA_BASE_URL
      let model := settings.OLLAMA_MODEL
      let st1 : LLMCacheState := { st with probes := st.probes + 1 }
      match probe with
      | .unreachable => .error (ollama_connect_error base_url)
      | .invalidJson msg => .error (ollama_invalid_response_error base_url msg)
      | .tags mdl =>
        let models := mdl.getD []
        let model_names := models.map (fun m => m.name.getD "")
        let model_found := model_names.contains model ||
          model_names.contains (model ++ ":latest")
        if model_names.isEmpty || !model_found then
          .error (ollama_model_not_found_error model model_names)
        else
          let llm := LLMHandle.ollama model base_url settings.OLLAMA_TIMEOUT
            settings.OLLAMA_CONTEXT_WINDOW system_prompt
          .ok (llm, { st1 with cache := cacheInsert st1.cache key llm,
                               constructions := st1.constructions + 1 })
    else
      .error (invalid_provider_error provider)

/-! ### `query_with_retry` — the tenacity policy from `query_engine.py`

The decorator is
`@retry(stop=stop_after_attempt(3), wait=wait_exponential(multiplier=1, min=1, max=10))`.
The combinator itself lives in the external `tenacity` library; it is
modelled here by its documented semantics, which the spec restates: run
the wrapped call with attempts numbered from 1; on success return the
result; on an exception, if the stop condition (3 total attempts) is not
yet reached, sleep `wait_exponential` and try again, else surface the last
failure.  The wrapped call is abstracted as an attempt-indexed outcome
function `f : Nat → Except E A`. -/

/-- `wait_exponential(multiplier=1, min=1, max=10)` after attempt
`attempt`: `multiplier * 2^(attempt-1)` clamped into `[min, max]`. -/
def wait_exponential (multiplier minw maxw attempt : Nat) : Nat :=
  max (max 0 minw) (min (multiplier * 2 ^ (attempt - 1)) maxw)

/-- The retry loop: `retry_run E A f waitFn attempt fuel` runs attempt
`attempt` with `fuel` further attempts allowed, returning the final
outcome, the number of the last attempt executed, and the list of backoff
waits slept between attempts. -/
def retry_run (E A : Type) (f : Nat → Except E A) (waitFn : Nat → Nat) :
    Nat → Nat → Except E A × Nat × List Nat
  | attempt, 0 => (f attempt, attempt, [])
  | attempt, fuel + 1 =>
    match f attempt with
    | .ok a => (.ok a, attempt, [])
    | .error _ =>
      let r := retry_run E A f waitFn (attempt + 1) fuel
      (r.1, r.2.1, waitFn attempt :: r.2.2)

/-- `query_with_retry`: the wrapped single-question entry point under the
source's policy — `stop_after_attempt(3)` (attempts 1, 2, 3) and
`wait_exponential(multiplier=1, min=1, max=10)` between attempts. -/
def query_with_retry (E A : Type) (f : Nat → Except E A) :
    Except E A × Nat × List Nat :=
  retry_run E A f (wait_exponential 1 1 10) 1 2

/-! ### String helper lemmas -/

theorem string_append_assoc (a b c : String) : a ++ b ++ c = a ++ (b ++ c) :=
  String.ext (by simp)

/-- The text contributed after the first line by `"\n".join`: a newline
before each subsequent line. -/
def joinNL : List String → String
  | [] => ""
  | l :: ls => "\n" ++ l ++ joinNL ls

theorem intercalate_go_eq (ls : List String) (acc : String) :
    String.intercalate.go acc "\n" ls = acc ++ joinNL ls := by
  induction ls generalizing acc with
  | nil => simp [String.intercalate.go, joinNL]
  | cons a as ih =>
    simp only [String.intercalate.go, joinNL, ih, string_append_assoc]

theorem intercalate_nl_cons (a : String) (ls : List String) :
    String.intercalate "\n" (a :: ls) = a ++ joinNL ls := by
  simp [String.intercalate, intercalate_go_eq]

theorem joinNL_sources_header (t : String) :
    "\n" ++ "" ++ ("\n" ++ "---" ++ ("\n" ++ "*Sources:*" ++ t))
      = "\n\n---\n*Sources:*" ++ t := by
  rw [← string_append_assoc ("\n" ++ "---") ("\n" ++ "*Sources:*") t,
      ← string_append_assoc ("\n" ++ "") (("\n" ++ "---") ++ ("\n" ++ "*Sources:*")) t]
  exact congrArg (fun x => x ++ t) rfl

/-- Structure of `format_response`: answer, then the fixed separator and
heading block, then the newline-joined rendered lines of the first three
sources. -/
theorem format_response_eq (r : QueryResult) :
    format_response r
      = r.answer ++ "\n\n---\n*Sources:*"
        ++ joinNL ((r.sources.take 3).enum.map (fun p => render_source_line (p.1 + 1) p.2)) := by
  unfold format_response
  simp only [List.cons_append, List.nil_append]
  rw [intercalate_nl_cons]
  simp only [joinNL]
  rw [joinNL_sources_header, ← string_append_assoc]

/-! ### Claims about the formatter -/

/-- Claim C9: for a `QueryResult` with no sources, `format_response` still
returns normally and yields the answer followed by the separator line and
the `*Sources:*` heading with zero source lines — the heading is emitted
unconditionally. -/
theorem claim_C9 (answer : String) :
    format_response ⟨answer, []⟩ = answer ++ "\n\n---\n*Sources:*" := by
  rw [format_response_eq]
  simp [joinNL]

/-! ### Claims about snippet truncation -/

/-- Claim C6: the snippet truncation maps a 250-character chunk text to the
first 200 characters plus the 3-character ellipsis marker (length 203),
and leaves a 50-character text unchanged. -/
theorem claim_C6 (s : String) :
    (s.length = 250 →
        (truncate_snippet s).length = 203 ∧
        truncate_snippet s = (⟨s.data.take 200⟩ : String) ++ "...") ∧
    (s.length = 50 → truncate_snippet s = s) := by
  obtain ⟨cs⟩ := s
  constructor
  · intro h
    have h' : cs.length = 250 := by simpa using h
    have hgt : (String.mk cs).length > 200 := by simp [h']
    have heq : truncate_snippet ⟨cs⟩ = (⟨cs.take 200⟩ : String) ++ "..." := by
      unfold truncate_snippet
      rw [if_pos hgt]
    refine ⟨?_, heq⟩
    rw [heq, String.length_append, String.length_mk, List.length_take, h']
    decide
  · intro h
    have h' : cs.length = 50 := by simpa using h
    have hle : ¬ (String.mk cs).length > 200 := by simp [h']
    unfold truncate_snippet
    rw [if_neg hle]

/-- Witness for C6 at a concrete 250-character and a concrete 50-character
text. -/
theorem claim_C6_witness :
    (truncate_snippet ⟨List.replicate 250 'a'⟩).length = 203 ∧
    truncate_snippet ⟨List.replicate 50 'b'⟩ = ⟨List.replicate 50 'b'⟩ :=
  ⟨((claim_C6 ⟨List.replicate 250 'a'⟩).1
      (by rw [String.length_mk, List.length_replicate])).1,
   (claim_C6 ⟨List.replicate 50 'b'⟩).2
      (by rw [String.length_mk, List.length_replicate])⟩

/-- Claim C3 (amended): `format_response` renders the answer text followed
by a visually separated `*Sources:*` section listing at most the top 3
sources in order, where a listed source renders as a clickable link only
when its `source_type` is `docs` AND its `source_path` looks like a web
URL (starts with `http`); otherwise it renders as an inline code-styled
path. -/
theorem claim_C3 (r : QueryResult) :
    format_response r
      = r.answer ++ "\n\n---\n*Sources:*"
        ++ joinNL ((r.sources.take 3).enum.map (fun p =>
            if p.2.source_type == "docs" && pyStartsWith p.2.source_path "http" then
              toString (p.1 + 1) ++ ". <" ++ p.2.source_path ++ "|" ++ p.2.source_path ++ ">"
            else
              toString (p.1 + 1) ++ ". `" ++ p.2.source_path ++ "`"))
    ∧ ((r.sources.take 3).enum.map (fun p => render_source_line (p.1 + 1) p.2)).length ≤ 3 := by
  constructor
  · rw [format_response_eq]
    rfl
  · simp only [List.length_map, List.enum_length]
    exact le_trans (List.length_take_le 3 r.sources) (le_refl 3)

/-- Counterexample to C3 as stated: a source whose `source_path` looks
like a web URL (starts with `http`) but whose `source_type` is `code`
renders as an inline code-styled path, not as a clickable link. -/
theorem claim_C3_counterexample :
    pyStartsWith "https://a" "http" = true ∧
    format_response ⟨"X", [⟨"snippet", "https://a", "code", 1/2⟩]⟩
      = "X\n\n---\n*Sources:*\n1. `https://a`" ∧
    format_response ⟨"X", [⟨"snippet", "https://a", "code", 1/2⟩]⟩
      ≠ "X\n\n---\n*Sources:*\n1. <https://a|https://a>" := by
  refine ⟨rfl, by decide, by decide⟩

/-! ### Claims about the repository-loader inclusion predicate -/

/-- Claim C7: the inclusion predicate accepts `.py`/`.md` paths (when no
other gate rejects them), rejects `.png`/`.jpg` paths outright, rejects
any path with a component in the excluded-directory set, and rejects a
file whose reported size exceeds the 100KB ceiling. -/
theorem claim_C7 :
    (∀ (fs : String → FileInfo) (p : String),
        ((splitext p).2 = ".py" ∨ (splitext p).2 = ".md") →
        (fs p = FileInfo.absent ∨
          ∃ sz, fs p = FileInfo.present (some sz) ∧ sz ≤ MAX_FILE_SIZE) →
        (pySplitSlash p).any (fun part => EXCLUDE_DIRS.contains part) = false →
        should_include_file fs p = true) ∧
    (∀ (fs : String → FileInfo) (p : String),
        ((splitext p).2 = ".png" ∨ (splitext p).2 = ".jpg") →
        should_include_file fs p = false) ∧
    (∀ (fs : String → FileInfo) (p : String),
        (pySplitSlash p).any (fun part => EXCLUDE_DIRS.contains part) = true →
        should_include_file fs p = false) ∧
    (∀ (fs : String → FileInfo) (p : String) (sz : Nat),
        fs p = FileInfo.present (some sz) → sz > MAX_FILE_SIZE →
        should_include_file fs p = false) := by
  refine ⟨?_, ?_, ?_, ?_⟩
  · intro fs p hext hsize hdir
    have hea : extension_allowed p = true := by
      unfold extension_allowed
      rcases hext with h | h <;> rw [h] <;> decide
    unfold should_include_file
    rw [hea]
    rcases hsize with habs | ⟨sz, hsz, hle⟩
    · simp only [habs]
      simp
      simpa using hdir
    · simp only [hsz]
      simp [Nat.not_lt.mpr hle]
      simpa using hdir
  · intro fs p hext
    have hea : extension_allowed p = false := by
      unfold extension_allowed
      rcases hext with h | h <;> rw [h] <;> decide
    unfold should_include_file
    rw [hea]
    rfl
  · intro fs p hdir
    unfold should_include_file
    rcases hb : extension_allowed p with _ | _
    · rfl
    · simp only [Bool.not_true, Bool.false_eq_true, if_false, hdir]
      rcases fs p with _ | ⟨_ | sz⟩ <;> simp
  · intro fs p sz hsz hgt
    unfold should_include_file
    rcases hb : extension_allowed p with _ | _
    · rfl
    · simp [hsz, hgt]

/-- Witness for C7 at the spec examples: `src/main.py` passes, `img.png`
fails, `node_modules/x.js` fails, an oversized `.py` file fails. -/
theorem claim_C7_witness :
    should_include_file (fun _ => FileInfo.absent) "src/main.py" = true ∧
    should_include_file (fun _ => FileInfo.absent) "img.png" = false ∧
    should_include_file (fun _ => FileInfo.absent) "node_modules/x.js" = false ∧
    should_include_file (fun _ => FileInfo.present (some 200000)) "big.py" = false :=
  ⟨claim_C7.1 _ _ (Or.inl (by decide)) (Or.inl rfl) (by decide),
   claim_C7.2.1 _ _ (Or.inl (by decide)),
   claim_C7.2.2.1 _ _ (by decide),
   claim_C7.2.2.2 _ _ 200000 rfl (by decide)⟩

/-- Claim C10: the extension gate of `should_include_file` is
case-insensitive — it lower-cases the extension before testing membership,
so any path whose extension lower-cases to an allow-listed extension
passes the gate, and two paths whose extensions agree up to case are
treated identically. -/
theorem claim_C10 :
    (∀ (p e : String), e ∈ INCLUDE_EXTENSIONS →
        pyLower (splitext p).2 = e → extension_allowed p = true) ∧
    (∀ (p q : String),
        pyLower (splitext p).2 = pyLower (splitext q).2 →
        extension_allowed p = extension_allowed q) ∧
    extension_allowed "x.PY" = true ∧
    extension_allowed "README.MD" = true ∧
    should_include_file (fun _ => FileInfo.absent) "x.PY" = true ∧
    should_include_file (fun _ => FileInfo.absent) "README.MD" = true := by
  refine ⟨?_, ?_, by decide, by decide, by decide, by decide⟩
  · intro p e hmem hlow
    unfold extension_allowed
    rw [hlow]
    exact List.elem_eq_true_of_mem hmem
  · intro p q h
    unfold extension_allowed
    rw [h]

/-- Witness for C10 at a concrete mixed-case path. -/
theorem claim_C10_witness : extension_allowed "Notes.Md" = true :=
  claim_C10.1 "Notes.Md" ".md" (by decide) (by decide)

/-! ### Claim about source-path carry-through (C1) -/

/-- Claim C1 evaluated at its failing inputs: the loaders record the docs
page URL and the `{repo_name}/{rel_path}` string under the metadata key
`source`, but `query` builds `Source.source_path` from the keys
`source_path` / `file_path`.  Hence a docs chunk surfaces `"Unknown"`
instead of its page URL, and a repository chunk surfaces the absolute
path of the local clone instead of `{repo_name}/{rel_path}` — while
`source_type` and the 0.0 score default do carry through. -/
theorem claim_C1_theorem :
    (source_from_node "some text"
        (docs_page_metadata "https://example.com/docs/guide") (some (9/10))).source_path
      = "Unknown" ∧
    "Unknown" ≠ "https://example.com/docs/guide" ∧
    pyDictGet (docs_page_metadata "https://example.com/docs/guide") "source" ""
      = "https://example.com/docs/guide" ∧
    (source_from_node "body"
        (github_code_metadata "slack-docs-bot" "src/main.py"
          "https://github.com/u/slack-docs-bot" "/tmp/repo_abc/src/main.py") none).source_path
      = "/tmp/repo_abc/src/main.py" ∧
    "/tmp/repo_abc/src/main.py" ≠ "slack-docs-bot/src/main.py" ∧
    pyDictGet (github_code_metadata "slack-docs-bot" "src/main.py"
        "https://github.com/u/slack-docs-bot" "/tmp/repo_abc/src/main.py") "source" ""
      = "slack-docs-bot/src/main.py" ∧
    (source_from_node "some text"
        (docs_page_metadata "https://example.com/docs/guide") (some (9/10))).source_type
      = "docs" ∧
    (source_from_node "body"
        (github_code_metadata "slack-docs-bot" "src/main.py"
          "https://github.com/u/slack-docs-bot" "/tmp/repo_abc/src/main.py") none).score
      = 0 := by
  refine ⟨by decide, by decide, by decide, by decide, by decide, by decide, by decide, by decide⟩

/-! ### Provider cache lemmas -/

/-- A cache hit returns the cached handle and leaves the state untouched
(no construction, no probe). -/
theorem get_llm_hit (settings : ProviderSettings) (sp : Option String)
    (probe : OllamaProbe) (st : LLMCacheState) (h : LLMHandle)
    (hhit : cacheLookup st.cache (cacheKey settings.LLM_PROVIDER sp) = some h) :
    get_llm settings sp probe st = .ok (h, st) := by
  simp only [get_llm, hhit]

/-- On a cache miss, a successful `get_llm` returns a handle built with
the requested system prompt, inserts it under the computed key, and
counts exactly one construction. -/
theorem get_llm_miss_spec (settings : ProviderSettings) (sp : Option String)
    (probe : OllamaProbe) (st : LLMCacheState) (h : LLMHandle) (st1 : LLMCacheState)
    (hmiss : cacheLookup st.cache (cacheKey settings.LLM_PROVIDER sp) = none)
    (hok : get_llm settings sp probe st = .ok (h, st1)) :
    h.system_prompt = sp ∧
    st1.cache = cacheInsert st.cache (cacheKey settings.LLM_PROVIDER sp) h ∧
    st1.constructions = st.constructions + 1 := by
  simp only [get_llm, hmiss] at hok
  split at hok
  · simp only [Except.ok.injEq, Prod.mk.injEq] at hok
    obtain ⟨hh, hst⟩ := hok
    subst hh
    subst hst
    exact ⟨rfl, rfl, rfl⟩
  · split at hok
    · split at hok
      · exact absurd hok (by simp)
      · exact absurd hok (by simp)
      · split at hok
        · exact absurd hok (by simp)
        · simp only [Except.ok.injEq, Prod.mk.injEq] at hok
          obtain ⟨hh, hst⟩ := hok
          subst hh
          subst hst
          exact ⟨rfl, rfl, rfl⟩
    · exact absurd hok (by simp)

/-- After any successful call, the computed key maps to the returned
handle in the returned state. -/
theorem get_llm_ok_lookup (settings : ProviderSettings) (sp : Option String)
    (probe : OllamaProbe) (st : LLMCacheState) (h : LLMHandle) (st1 : LLMCacheState)
    (hok : get_llm settings sp probe st = .ok (h, st1)) :
    cacheLookup st1.cache (cacheKey settings.LLM_PROVIDER sp) = some h := by
  rcases hhit : cacheLookup st.cache (cacheKey settings.LLM_PROVIDER sp) with _ | llm
  · obtain ⟨_, hc, _⟩ := get_llm_miss_spec settings sp probe st h st1 hhit hok
    rw [hc]
    simp [cacheLookup, cacheInsert]
  · rw [get_llm_hit settings sp probe st llm hhit] at hok
    simp only [Except.ok.injEq, Prod.mk.injEq] at hok
    obtain ⟨hh, hst⟩ := hok
    subst hh
    subst hst
    exact hhit

/-- Inserting under one key does not change lookups under another. -/
theorem cacheLookup_insert_ne (cache : List (String × LLMHandle))
    (k1 k2 : String) (h : LLMHandle) (hne : k1 ≠ k2) :
    cacheLookup (cacheInsert cache k1 h) k2 = cacheLookup cache k2 := by
  simp [cacheLookup, cacheInsert, List.find?_cons, hne]

/-- Cache keys built from the same provider and prompts with different
string renderings are different. -/
theorem cacheKey_inj (provider : String) (sp1 sp2 : Option String)
    (hne : pyStrOpt sp1 ≠ pyStrOpt sp2) :
    cacheKey provider sp1 ≠ cacheKey provider sp2 := by
  intro h
  apply hne
  unfold cacheKey at h
  have hd := congrArg String.data h
  simp only [String.data_append, List.append_assoc] at hd
  exact String.ext (List.append_cancel_left (List.append_cancel_left hd))

/-! ### Claims about the provider cache -/

/-- Claim C5 (amended): a second call with the identical
`(backend_kind, system_prompt)` pair returns the very handle computed by
the first call with the state unchanged (so construction happened exactly
once and no further probe/network call is made), and a second call whose
system prompt has a different string rendering yields a distinct handle
and exactly one additional construction.  (The rendering condition is
forced by the cache key `f"{provider}:{system_prompt}"`, under which the
absent prompt collides with the literal string `"None"`.) -/
theorem claim_C5 :
    (∀ (settings : ProviderSettings) (sp : Option String) (probe : OllamaProbe)
        (st : LLMCacheState) (h : LLMHandle) (st1 : LLMCacheState),
        get_llm settings sp probe st = .ok (h, st1) →
        get_llm settings sp probe st1 = .ok (h, st1)) ∧
    (∀ (settings : ProviderSettings) (sp : Option String) (probe : OllamaProbe)
        (st : LLMCacheState) (h : LLMHandle) (st1 : LLMCacheState),
        cacheLookup st.cache (cacheKey settings.LLM_PROVIDER sp) = none →
        get_llm settings sp probe st = .ok (h, st1) →
        st1.constructions = st.constructions + 1) ∧
    (∀ (settings : ProviderSettings) (sp1 sp2 : Option String)
        (probe1 probe2 : OllamaProbe) (st : LLMCacheState)
        (h1 : LLMHandle) (st1 : LLMCacheState) (h2 : LLMHandle) (st2 : LLMCacheState),
        pyStrOpt sp1 ≠ pyStrOpt sp2 →
        cacheLookup st.cache (cacheKey settings.LLM_PROVIDER sp1) = none →
        cacheLookup st.cache (cacheKey settings.LLM_PROVIDER sp2) = none →
        get_llm settings sp1 probe1 st = .ok (h1, st1) →
        get_llm settings sp2 probe2 st1 = .ok (h2, st2) →
        h1 ≠ h2 ∧ st2.constructions = st1.constructions + 1) := by
  refine ⟨?_, ?_, ?_⟩
  · intro settings sp probe st h st1 hok
    exact get_llm_hit settings sp probe st1 h
      (get_llm_ok_lookup settings sp probe st h st1 hok)
  · intro settings sp probe st h st1 hmiss hok
    exact (get_llm_miss_spec settings sp probe st h st1 hmiss hok).2.2
  · intro settings sp1 sp2 probe1 probe2 st h1 st1 h2 st2 hne hmiss1 hmiss2 hok1 hok2
    obtain ⟨hsp1, hc1, _⟩ := get_llm_miss_spec settings sp1 probe1 st h1 st1 hmiss1 hok1
    have hkne : cacheKey settings.LLM_PROVIDER sp1 ≠ cacheKey settings.LLM_PROVIDER sp2 :=
      cacheKey_inj settings.LLM_PROVIDER sp1 sp2 hne
    have hmiss2' : cacheLookup st1.cache (cacheKey settings.LLM_PROVIDER sp2) = none := by
      rw [hc1, cacheLookup_insert_ne st.cache _ _ h1 hkne]
      exact hmiss2
    obtain ⟨hsp2, _, hcons2⟩ := get_llm_miss_spec settings sp2 probe2 st1 h2 st2 hmiss2' hok2
    refine ⟨?_, hcons2⟩
    intro heq
    exact hne (congrArg pyStrOpt (hsp1 ▸ hsp2 ▸ congrArg LLMHandle.system_prompt heq))

/-- Concrete `openai` settings used to instantiate the cache claims. -/
def sampleSettings : ProviderSettings :=
  ⟨"openai", "test-key", "https://api.openai.com/v1", "gpt-4",
   "http://localhost:11434", "llama3.2", 120, 8192⟩

/-- Witness for C5 at concrete inputs: two fresh constructions with
prompts `None` and `"custom"` give distinct handles and construction
counts 1 and 2. -/
theorem claim_C5_witness :
    LLMHandle.openai "test-key" "https://api.openai.com/v1" "gpt-4" (1/10) 1024 none
      ≠ LLMHandle.openai "test-key" "https://api.openai.com/v1" "gpt-4" (1/10) 1024 (some "custom") ∧
    (2 : Nat) = 1 + 1 :=
  claim_C5.2.2 sampleSettings none (some "custom")
    OllamaProbe.unreachable OllamaProbe.unreachable ⟨[], 0, 0⟩
    (LLMHandle.openai "test-key" "https://api.openai.com/v1" "gpt-4" (1/10) 1024 none)
    ⟨[("openai:None",
       LLMHandle.openai "test-key" "https://api.openai.com/v1" "gpt-4" (1/10) 1024 none)], 1, 0⟩
    (LLMHandle.openai "test-key" "https://api.openai.com/v1" "gpt-4" (1/10) 1024 (some "custom"))
    ⟨[("openai:custom",
       LLMHandle.openai "test-key" "https://api.openai.com/v1" "gpt-4" (1/10) 1024 (some "custom")),
      ("openai:None",
       LLMHandle.openai "test-key" "https://api.openai.com/v1" "gpt-4" (1/10) 1024 none)], 2, 0⟩
    (by decide) rfl rfl rfl rfl

/-- Counterexample to C5 as stated: `None` and the literal string
`"None"` are different system-prompt arguments, yet the second call is a
cache hit — it returns the same instance and performs no additional
construction, because both render to the cache key `openai:None`. -/
theorem claim_C5_counterexample :
    (none : Option String) ≠ some "None" ∧
    get_llm sampleSettings none OllamaProbe.unreachable ⟨[], 0, 0⟩
      = .ok (LLMHandle.openai "test-key" "https://api.openai.com/v1" "gpt-4" (1/10) 1024 none,
             ⟨[("openai:None",
                LLMHandle.openai "test-key" "https://api.openai.com/v1" "gpt-4" (1/10) 1024 none)],
              1, 0⟩) ∧
    get_llm sampleSettings (some "None") OllamaProbe.unreachable
        ⟨[("openai:None",
           LLMHandle.openai "test-key" "https://api.openai.com/v1" "gpt-4" (1/10) 1024 none)],
         1, 0⟩
      = .ok (LLMHandle.openai "test-key" "https://api.openai.com/v1" "gpt-4" (1/10) 1024 none,
             ⟨[("openai:None",
                LLMHandle.openai "test-key" "https://api.openai.com/v1" "gpt-4" (1/10) 1024 none)],
              1, 0⟩) :=
  ⟨by decide, rfl, rfl⟩

/-- Claim C8: for every backend kind, the cache key for `system_prompt=None`
and for the literal string `"None"` is the same string `provider:None`, so
after either call succeeds the other returns the already-cached handle
with the state unchanged. -/
theorem claim_C8 :
    (∀ provider : String,
        cacheKey provider none = provider ++ ":None" ∧
        cacheKey provider (some "None") = provider ++ ":None") ∧
    (∀ (settings : ProviderSettings) (probe probe2 : OllamaProbe)
        (st : LLMCacheState) (h : LLMHandle) (st1 : LLMCacheState),
        get_llm settings none probe st = .ok (h, st1) →
        get_llm settings (some "None") probe2 st1 = .ok (h, st1)) ∧
    (∀ (settings : ProviderSettings) (probe probe2 : OllamaProbe)
        (st : LLMCacheState) (h : LLMHandle) (st1 : LLMCacheState),
        get_llm settings (some "None") probe st = .ok (h, st1) →
        get_llm settings none probe2 st1 = .ok (h, st1)) := by
  refine ⟨?_, ?_, ?_⟩
  · intro provider
    constructor
    · rw [cacheKey, string_append_assoc]
      exact congrArg (fun x => provider ++ x) rfl
    · rw [cacheKey, string_append_assoc]
      exact congrArg (fun x => provider ++ x) rfl
  · intro settings probe probe2 st h st1 hok
    exact get_llm_hit settings (some "None") probe2 st1 h
      (get_llm_ok_lookup settings none probe st h st1 hok)
  · intro settings probe probe2 st h st1 hok
    exact get_llm_hit settings none probe2 st1 h
      (get_llm_ok_lookup settings (some "None") probe st h st1 hok)

/-- Witness for C8: after a first call with `None`, the call with the
string `"None"` hits the cache and returns the same handle and state. -/
theorem claim_C8_witness :
    get_llm sampleSettings (some "None") OllamaProbe.unreachable
        ⟨[("openai:None",
           LLMHandle.openai "test-key" "https://api.openai.com/v1" "gpt-4" (1/10) 1024 none)],
         1, 0⟩
      = .ok (LLMHandle.openai "test-key" "https://api.openai.com/v1" "gpt-4" (1/10) 1024 none,
             ⟨[("openai:None",
                LLMHandle.openai "test-key" "https://api.openai.com/v1" "gpt-4" (1/10) 1024 none)],
              1, 0⟩) :=
  claim_C8.2.1 sampleSettings OllamaProbe.unreachable OllamaProbe.unreachable
    ⟨[], 0, 0⟩
    (LLMHandle.openai "test-key" "https://api.openai.com/v1" "gpt-4" (1/10) 1024 none)
    ⟨[("openai:None",
       LLMHandle.openai "test-key" "https://api.openai.com/v1" "gpt-4" (1/10) 1024 none)], 1, 0⟩
    rfl

/-! ### Claim about the health-probe error taxonomy (C4) -/

/-- Concrete `ollama` settings used to instantiate the health-probe
claims. -/
def ollamaSettings : ProviderSettings :=
  ⟨"ollama", "", "https://api.openai.com/v1", "gpt-4o-mini",
   "http://localhost:11434", "llama3.2", 120, 8192⟩

/-- Claim C4: on the `ollama` cache-miss path, the four health-probe
failure modes produce four errors distinguishable by message content:
(a) an unreachable probe yields a connectivity error naming the base URL;
(b) well-formed JSON without the target model yields an error naming the
missing model and listing the available ones; (c) an empty model list
yields an error with the explicit `none` phrase; (d) a malformed payload
yields a distinct invalid-response error naming the backend address.  The
final conjuncts check pairwise distinctness at the concrete configuration. -/
theorem claim_C4 :
    (∀ (settings : ProviderSettings) (sp : Option String) (st : LLMCacheState),
        settings.LLM_PROVIDER = "ollama" →
        cacheLookup st.cache (cacheKey settings.LLM_PROVIDER sp) = none →
        get_llm settings sp OllamaProbe.unreachable st
          = .error ("Cannot connect to Ollama at " ++ settings.OLLAMA_BASE_URL
              ++ ". Is Ollama running?")) ∧
    (∀ (settings : ProviderSettings) (sp : Option String) (st : LLMCacheState) (msg : String),
        settings.LLM_PROVIDER = "ollama" →
        cacheLookup st.cache (cacheKey settings.LLM_PROVIDER sp) = none →
        get_llm settings sp (OllamaProbe.invalidJson msg) st
          = .error ("Invalid response from Ollama at " ++ settings.OLLAMA_BASE_URL
              ++ ": " ++ msg)) ∧
    (∀ (settings : ProviderSettings) (sp : Option String) (st : LLMCacheState)
        (models : List TagEntry),
        settings.LLM_PROVIDER = "ollama" →
        cacheLookup st.cache (cacheKey settings.LLM_PROVIDER sp) = none →
        (models.map (fun m => m.name.getD "")).isEmpty = false →
        (models.map (fun m => m.name.getD "")).contains settings.OLLAMA_MODEL = false →
        (models.map (fun m => m.name.getD "")).contains
          (settings.OLLAMA_MODEL ++ ":latest") = false →
        get_llm settings sp (OllamaProbe.tags (some models)) st
          = .error ("Model \x27" ++ settings.OLLAMA_MODEL
              ++ "\x27 not found in Ollama. Available models: "
              ++ String.intercalate ", " (models.map (fun m => m.name.getD ""))
              ++ ". Run: ollama pull " ++ settings.OLLAMA_MODEL)) ∧
    (∀ (settings : ProviderSettings) (sp : Option String) (st : LLMCacheState),
        settings.LLM_PROVIDER = "ollama" →
        cacheLookup st.cache (cacheKey settings.LLM_PROVIDER sp) = none →
        get_llm settings sp (OllamaProbe.tags (some [])) st
          = .error ("Model \x27" ++ settings.OLLAMA_MODEL
              ++ "\x27 not found in Ollama. Available models: " ++ "none"
              ++ ". Run: ollama pull " ++ settings.OLLAMA_MODEL)) ∧
    (("Cannot connect to Ollama at http://localhost:11434. Is Ollama running?" : String)
        ≠ "Model \x27llama3.2\x27 not found in Ollama. Available models: mistral, neural-chat. Run: ollama pull llama3.2" ∧
     ("Cannot connect to Ollama at http://localhost:11434. Is Ollama running?" : String)
        ≠ "Model \x27llama3.2\x27 not found in Ollama. Available models: none. Run: ollama pull llama3.2" ∧
     ("Cannot connect to Ollama at http://localhost:11434. Is Ollama running?" : String)
        ≠ "Invalid response from Ollama at http://localhost:11434: Expecting value" ∧
     ("Model \x27llama3.2\x27 not found in Ollama. Available models: mistral, neural-chat. Run: ollama pull llama3.2" : String)
        ≠ "Model \x27llama3.2\x27 not found in Ollama. Available models: none. Run: ollama pull llama3.2" ∧
     ("Model \x27llama3.2\x27 not found in Ollama. Available models: mistral, neural-chat. Run: ollama pull llama3.2" : String)
        ≠ "Invalid response from Ollama at http://localhost:11434: Expecting value" ∧
     ("Model \x27llama3.2\x27 not found in Ollama. Available models: none. Run: ollama pull llama3.2" : String)
        ≠ "Invalid response from Ollama at http://localhost:11434: Expecting value") ∧
    (get_llm ollamaSettings none OllamaProbe.unreachable ⟨[], 0, 0⟩
        = .error "Cannot connect to Ollama at http://localhost:11434. Is Ollama running?" ∧
     get_llm ollamaSettings none
         (OllamaProbe.tags (some [⟨some "mistral"⟩, ⟨some "neural-chat"⟩])) ⟨[], 0, 0⟩
        = .error "Model \x27llama3.2\x27 not found in Ollama. Available models: mistral, neural-chat. Run: ollama pull llama3.2" ∧
     get_llm ollamaSettings none (OllamaProbe.tags (some [])) ⟨[], 0, 0⟩
        = .error "Model \x27llama3.2\x27 not found in Ollama. Available models: none. Run: ollama pull llama3.2" ∧
     get_llm ollamaSettings none (OllamaProbe.invalidJson "Expecting value") ⟨[], 0, 0⟩
        = .error "Invalid response from Ollama at http://localhost:11434: Expecting value") := by
  refine ⟨?_, ?_, ?_, ?_, ?_, ?_⟩
  · intro settings sp st hp hmiss
    rw [hp] at hmiss
    simp only [get_llm, hp, hmiss, if_true]
    rfl
  · intro settings sp st msg hp hmiss
    rw [hp] at hmiss
    simp only [get_llm, hp, hmiss, if_true]
    rfl
  · intro settings sp st models hp hmiss hne hc1 hc2
    rw [hp] at hmiss
    simp only [get_llm, hp, hmiss, if_true, Option.getD_some]
    simp only [hne, hc1, hc2, Bool.or_false, Bool.not_false, Bool.false_or, if_true]
    rw [ollama_model_not_found_error]
    simp [hne]
  · intro settings sp st hp hmiss
    rw [hp] at hmiss
    simp only [get_llm, hp, hmiss, if_true, Option.getD_some]
    rfl
  · refine ⟨by decide, by decide, by decide, by decide, by decide, by decide⟩
  · refine ⟨rfl, rfl, rfl, rfl⟩

/-- Witness for C4: the four failure modes evaluated at the concrete
configuration via the universally quantified parts. -/
theorem claim_C4_witness :
    get_llm ollamaSettings (some "prompt") OllamaProbe.unreachable ⟨[], 0, 0⟩
      = .error ("Cannot connect to Ollama at " ++ ollamaSettings.OLLAMA_BASE_URL
          ++ ". Is Ollama running?") ∧
    get_llm ollamaSettings (some "prompt") (OllamaProbe.invalidJson "bad payload") ⟨[], 0, 0⟩
      = .error ("Invalid response from Ollama at " ++ ollamaSettings.OLLAMA_BASE_URL
          ++ ": " ++ "bad payload") ∧
    get_llm ollamaSettings (some "prompt")
        (OllamaProbe.tags (some [⟨some "mistral"⟩])) ⟨[], 0, 0⟩
      = .error ("Model \x27" ++ ollamaSettings.OLLAMA_MODEL
          ++ "\x27 not found in Ollama. Available models: "
          ++ String.intercalate ", " (([⟨some "mistral"⟩] : List TagEntry).map (fun m => m.name.getD ""))
          ++ ". Run: ollama pull " ++ ollamaSettings.OLLAMA_MODEL) ∧
    get_llm ollamaSettings (some "prompt") (OllamaProbe.tags (some [])) ⟨[], 0, 0⟩
      = .error ("Model \x27" ++ ollamaSettings.OLLAMA_MODEL
          ++ "\x27 not found in Ollama. Available models: " ++ "none"
          ++ ". Run: ollama pull " ++ ollamaSettings.OLLAMA_MODEL) :=
  ⟨claim_C4.1 ollamaSettings (some "prompt") ⟨[], 0, 0⟩ rfl rfl,
   claim_C4.2.1 ollamaSettings (some "prompt") ⟨[], 0, 0⟩ "bad payload" rfl rfl,
   claim_C4.2.2.1 ollamaSettings (some "prompt") ⟨[], 0, 0⟩ [⟨some "mistral"⟩]
     rfl rfl (by decide) (by decide) (by decide),
   claim_C4.2.2.2.1 ollamaSettings (some "prompt") ⟨[], 0, 0⟩ rfl rfl⟩

/-! ### Claim about the retry wrapper (C2) -/

/-- Claim C2: the retry wrapper makes at most 3 total attempts with
backoff `wait_exponential(1, min=1, max=10)` — an always-failing wrapped
function is attempted exactly 3 times (sleeping 1 then 2 time-units) and
its last failure is surfaced; a function succeeding on attempt 2 is
attempted exactly twice and its result returned; the backoff starts at 1
and never exceeds 10. -/
theorem claim_C2 :
    (∀ (E A : Type) (f : Nat → Except E A) (e : Nat → E),
        (∀ n, f n = .error (e n)) →
        query_with_retry E A f
          = (.error (e 3), 3, [wait_exponential 1 1 10 1, wait_exponential 1 1 10 2])) ∧
    (∀ (E A : Type) (f : Nat → Except E A) (e1 : E) (a : A),
        f 1 = .error e1 → f 2 = .ok a →
        query_with_retry E A f = (.ok a, 2, [wait_exponential 1 1 10 1])) ∧
    (∀ (E A : Type) (f : Nat → Except E A), (query_with_retry E A f).2.1 ≤ 3) ∧
    wait_exponential 1 1 10 1 = 1 ∧
    (∀ n, 1 ≤ wait_exponential 1 1 10 n ∧ wait_exponential 1 1 10 n ≤ 10) := by
  have hle : ∀ (E A : Type) (f : Nat → Except E A) (waitFn : Nat → Nat)
      (fuel attempt : Nat),
      (retry_run E A f waitFn attempt fuel).2.1 ≤ attempt + fuel := by
    intro E A f waitFn fuel
    induction fuel with
    | zero => intro attempt; simp [retry_run]
    | succ fuel ih =>
      intro attempt
      rw [retry_run]
      rcases hfa : f attempt with e | a
      · simp only [hfa]
        have := ih (attempt + 1)
        omega
      · simp [hfa]
  refine ⟨?_, ?_, ?_, rfl, ?_⟩
  · intro E A f e h
    simp [query_with_retry, retry_run, h 1, h 2, h 3]
  · intro E A f e1 a h1 h2
    simp [query_with_retry, retry_run, h1, h2]
  · intro E A f
    exact hle E A f (wait_exponential 1 1 10) 2 1
  · intro n
    constructor
    · exact le_max_left (max 0 1) _
    · exact max_le (by decide) (min_le_right _ 10)

/-- Witness for C2 at concrete wrapped functions. -/
theorem claim_C2_witness :
    query_with_retry Nat Nat (fun _ => .error 7) = (.error 7, 3, [1, 2]) ∧
    query_with_retry Nat Nat (fun n => if n = 1 then .error 5 else .ok 9)
      = (.ok 9, 2, [1]) := by
  constructor
  · have h := claim_C2.1 Nat Nat (fun _ => .error 7) (fun _ => 7) (fun _ => rfl)
    simpa using h
  · have h := claim_C2.2.1 Nat Nat (fun n => if n = 1 then .error 5 else .ok 9)
      5 9 rfl rfl
    simpa using h

end DocsBot
